import Mathlib

/-!
Verification of the moviebuzz backend (src/server.js) against its
natural-language specification.

The server is a collection of stateless Express request handlers over a
MongoDB document store with four collections (User, Movie, Review, Diary).
We embed the store as a `Store` structure holding lists of documents, and
each handler as a pure function from a store (plus the request's inputs)
to a response and an updated store.  Machine-level details that the claims
do not touch (ObjectId strings, Date objects, the HTTP layer) are
abstracted: document ids and timestamps are naturals, ratings are rationals
(JS numbers on the review path are exact here; the spec itself only asks
for equality within floating-point tolerance, which the rational mean
witnesses), and bcrypt hashing / comparison are opaque function parameters.

Handlers written with try/catch in the source are embedded as total
functions returning a status code and a store.  Handlers written without
try/catch (the watchlist and diary routes) can throw a TypeError when the
user lookup yields null; these are embedded as Option-valued functions,
`none` meaning the exception escapes the handler unhandled.
-/

namespace MovieBuzz

/-- A document of the User collection (userSchema, server.js lines 26-33).
The watchlist holds Movie ObjectIds, embedded as naturals. -/
structure UserDoc where
  id : Nat
  email : String
  password : String
  username : String
  watchlist : List Nat
  deriving Repr, DecidableEq

/-- A document of the Movie collection (movieSchema, lines 36-45). -/
structure MovieDoc where
  id : Nat
  title : String
  genre : List String
  releaseYear : Nat
  director : String
  averageRating : ℚ
  deriving Repr, DecidableEq

/-- A document of the Review collection (reviewSchema, lines 48-55). -/
structure ReviewDoc where
  movieId : Nat
  userId : Nat
  username : String
  rating : ℚ
  text : String
  createdAt : Nat
  deriving Repr, DecidableEq

/-- The document store: the collections the claims touch. -/
structure Store where
  users : List UserDoc
  movies : List MovieDoc
  reviews : List ReviewDoc
  deriving Repr, DecidableEq

/-! ## Watchlist operations (lines 210-228)

The POST /api/users/:id/watchlist handler runs
  if (!user.watchlist.includes(movieId)) user.watchlist.push(movieId)
and the DELETE /api/users/:id/watchlist/:movieId handler runs
  user.watchlist = user.watchlist.filter(m => m.toString() !== movieId).
-/

/-- The list update performed by the watchlist POST handler (line 218):
append movieId unless it is already present. -/
def addToWatchlist (l : List Nat) (movieId : Nat) : List Nat :=
  if l.contains movieId then l else l ++ [movieId]

/-- The list update performed by the watchlist DELETE handler (line 225):
drop every occurrence of movieId. -/
def removeFromWatchlist (l : List Nat) (movieId : Nat) : List Nat :=
  l.filter (fun m => m != movieId)

/-- GET /api/users/:id/watchlist (lines 210-213).  No try/catch: when the
user lookup yields null, reading user.watchlist throws and no response is
produced (`none`). -/
def watchlistGetHandler (s : Store) (uid : Nat) : Option (Nat × List Nat) :=
  match s.users.find? (fun u => u.id == uid) with
  | none => none
  | some u => some (200, u.watchlist)

/-- Replace the stored document of user uid by applying f to it. -/
def saveUser (users : List UserDoc) (uid : Nat) (f : UserDoc → UserDoc) :
    List UserDoc :=
  users.map (fun u => if u.id == uid then f u else u)

/-- POST /api/users/:id/watchlist (lines 215-221).  No try/catch: a null
user makes user.watchlist.includes throw (`none`); otherwise the movieId
is appended unless already present, the user is saved, and the updated
watchlist is returned with status 200. -/
def watchlistPostHandler (s : Store) (uid movieId : Nat) :
    Option (Nat × List Nat × Store) :=
  match s.users.find? (fun u => u.id == uid) with
  | none => none
  | some u =>
      let wl := addToWatchlist u.watchlist movieId
      some (200, wl,
        { s with users := saveUser s.users uid (fun v => { v with watchlist := wl }) })

/-- DELETE /api/users/:id/watchlist/:movieId (lines 223-228).  No
try/catch: a null user makes user.watchlist.filter throw (`none`). -/
def watchlistDeleteHandler (s : Store) (uid movieId : Nat) :
    Option (Nat × List Nat × Store) :=
  match s.users.find? (fun u => u.id == uid) with
  | none => none
  | some u =>
      let wl := removeFromWatchlist u.watchlist movieId
      some (200, wl,
        { s with users := saveUser s.users uid (fun v => { v with watchlist := wl }) })

/-! ## Auth routes (lines 72-104) -/

/-- POST /api/auth/register (lines 72-87), parameterised by the bcrypt
hash (cost 12) as an opaque function.  freshId stands for the ObjectId
minted for the new document.  A stored user with the email answers 400,
store untouched.  Otherwise the handler hashes the password, derives the
username from the email's local part (email.split at the at-sign, index
0) and calls newUser.save(): the unique-username index (userSchema, line
29) makes save reject when another stored user already holds that
username, and the catch (line 84) answers 500 with nothing persisted;
otherwise the user is appended and 201 returned.  The unique-email index
cannot fire sequentially, because the handler pre-checks the email at
line 75. -/
def register (hash : String → String) (s : Store) (freshId : Nat)
    (email password : String) : Nat × Store :=
  match s.users.find? (fun u => u.email == email) with
  | some _ => (400, s)
  | none =>
      let hashed := hash password
      let uname := (email.splitOn "@").headD ""
      if s.users.any (fun u => u.username == uname) then (500, s)
      else (201, { s with
        users := s.users ++ [⟨freshId, email, hashed, uname, []⟩] })

/-- The signed token issued by login (line 99): jwt.sign binds exactly the
user's email and id, expires in one hour, under the configured secret. -/
structure Token where
  email : String
  userId : Nat
  expiresInSeconds : Nat
  secret : String
  deriving Repr, DecidableEq

/-- The response of the login handler: a status, the minimal user summary
(id and email) and the token, both absent on the error paths. -/
structure LoginResp where
  status : Nat
  result : Option (Nat × String)
  token : Option Token
  deriving Repr, DecidableEq

/-- POST /api/auth/login (lines 90-104), parameterised by bcrypt.compare
as an opaque predicate on (plaintext, storedHash).  No user with the email
gives 404; a failed comparison gives 400; otherwise 200 with the summary
and a one-hour token binding the user's id and email. -/
def login (compare : String → String → Bool) (secret : String)
    (s : Store) (email password : String) : LoginResp :=
  match s.users.find? (fun u => u.email == email) with
  | none => { status := 404, result := none, token := none }
  | some u =>
      if compare password u.password then
        { status := 200
          result := some (u.id, u.email)
          token := some ⟨u.email, u.id, 3600, secret⟩ }
      else
        { status := 400, result := none, token := none }

/-! ## Catalog: GET /api/movies (lines 111-127)

The handler builds a query object — genre and year as equality filters,
rating as a greater-or-equal filter on averageRating — and pages the
result with skip((page-1)*limit).limit(limit).  Mongoose casts the query
strings to the schema types; an equality filter on the array-valued genre
field matches documents whose genre list contains the value (the store's
equality-match semantics for arrays). -/

/-- The per-document predicate of the query built on lines 114-117:
absent parameters impose no constraint. -/
def movieMatches (genre : Option String) (year : Option Nat)
    (rating : Option ℚ) (m : MovieDoc) : Bool :=
  (match genre with | none => true | some g => m.genre.contains g) &&
  (match year with | none => true | some y => m.releaseYear == y) &&
  (match rating with | none => true | some r => decide (r ≤ m.averageRating))

/-- The filtered set Movie.find(query) draws from, in natural order. -/
def filteredMovies (movies : List MovieDoc) (genre : Option String)
    (year : Option Nat) (rating : Option ℚ) : List MovieDoc :=
  movies.filter (movieMatches genre year rating)

/-- GET /api/movies (lines 111-127): the filtered set paged with
skip((page-1)*limit) and limit(limit). -/
def listMovies (movies : List MovieDoc) (page limit : Nat)
    (genre : Option String) (year : Option Nat) (rating : Option ℚ) :
    List MovieDoc :=
  ((filteredMovies movies genre year rating).drop ((page - 1) * limit)).take limit

/-! ## Reviews (lines 158-183) -/

/-- The ratings of the stored reviews for a movie, in store order. -/
def ratingsFor (s : Store) (movieId : Nat) : List ℚ :=
  (s.reviews.filter (fun r => r.movieId == movieId)).map (fun r => r.rating)

/-- Movie.findByIdAndUpdate(movieId, \x7baverageRating: avg\x7d) (line 177):
a no-op when no movie has that id. -/
def updateMovieRating (movies : List MovieDoc) (movieId : Nat) (avg : ℚ) :
    List MovieDoc :=
  movies.map (fun m => if m.id == movieId then { m with averageRating := avg } else m)

/-- POST /api/movies/:id/reviews (lines 168-183).  The movieId comes from
the route parameter; userId, username and rating come from the body and
may be absent.  review.save() validates against reviewSchema (lines
48-55): movieId, userId, username and rating required, 1 ≤ rating ≤ 5; a
validation failure is caught and answered with 400, leaving the store
untouched.  On success the review is stored, all reviews for the movie
are re-read, their mean rating is computed and written onto the movie,
and 201 is returned. -/
def createReview (s : Store) (movieId : Nat) (userId : Option Nat)
    (username : Option String) (rating : Option ℚ) (text : String)
    (now : Nat) : Nat × Store :=
  match userId, username, rating with
  | some uid, some uname, some rat =>
      if 1 ≤ rat ∧ rat ≤ 5 then
        let s1 : Store :=
          { s with reviews := s.reviews ++ [⟨movieId, uid, uname, rat, text, now⟩] }
        let rs := ratingsFor s1 movieId
        let avg := rs.sum / (rs.length : ℚ)
        (201, { s1 with movies := updateMovieRating s1.movies movieId avg })
      else (400, s)
  | _, _, _ => (400, s)

/-- The sort key of Review.find(...).sort(\x7bcreatedAt: -1\x7d) (line 160):
a comes before b when its creation time is at least b's. -/
def newerFirst (a b : ReviewDoc) : Prop :=
  b.createdAt ≤ a.createdAt

instance : DecidableRel newerFirst := fun a b =>
  inferInstanceAs (Decidable (b.createdAt ≤ a.createdAt))

instance : IsTotal ReviewDoc newerFirst :=
  ⟨fun a b => Nat.le_total b.createdAt a.createdAt⟩

instance : IsTrans ReviewDoc newerFirst :=
  ⟨fun _ _ _ hab hbc => Nat.le_trans hbc hab⟩

/-- GET /api/movies/:id/reviews (lines 158-165): the reviews whose
movieId matches, sorted newest first. -/
def listReviewsForMovie (s : Store) (movieId : Nat) : List ReviewDoc :=
  List.insertionSort newerFirst (s.reviews.filter (fun r => r.movieId == movieId))

/-! ## GET /api/users/:id (lines 190-197) -/

/-- The response of the user-profile handler: a status and the body
res.json sends — the looked-up document, or null (none) when findById
found nothing. -/
structure UserResp where
  status : Nat
  body : Option UserDoc
  deriving Repr, DecidableEq

/-- GET /api/users/:id (lines 190-197).  findById on a well-formed id
never throws: it resolves to the document or to null, and res.json(user)
answers 200 either way.  The catch branch (404 "User not found") is only
reachable when the id string fails the ObjectId cast, which a well-formed
id — the embedding's Nat — never does. -/
def getUserHandler (s : Store) (uid : Nat) : UserResp :=
  { status := 200, body := s.users.find? (fun u => u.id == uid) }

/-! ## Helper lemmas for the average-rating invariant -/

/-- findByIdAndUpdate commutes with the id lookup: looking the movie up
after the rating update finds the updated document. -/
lemma find?_updateMovieRating (movies : List MovieDoc) (mid : Nat) (avg : ℚ) :
    (updateMovieRating movies mid avg).find? (fun m => m.id == mid)
      = (movies.find? (fun m => m.id == mid)).map
          (fun m => { m with averageRating := avg }) := by
  induction movies with
  | nil => rfl
  | cons a l ih =>
    simp only [updateMovieRating, List.map_cons] at ih ⊢
    cases h : (a.id == mid) with
    | true => simp [List.find?_cons, h]
    | false =>
      simp only [List.find?_cons, h, Bool.false_eq_true, if_false]
      exact ih

/-- A valid review-creation call, written out: status 201, the review
appended, and the movie's rating set to the mean over the enlarged
review set. -/
lemma createReview_valid_eq (s : Store) (mid uid : Nat) (uname text : String)
    (now : Nat) (r : ℚ) (h1 : 1 ≤ r) (h5 : r ≤ 5) :
    createReview s mid (some uid) (some uname) (some r) text now =
      (201,
       { users := s.users
         movies := updateMovieRating s.movies mid
           ((ratingsFor s mid ++ [r]).sum / ((ratingsFor s mid ++ [r]).length : ℚ))
         reviews := s.reviews ++ [⟨mid, uid, uname, r, text, now⟩] }) := by
  have hr : ratingsFor
      { s with reviews := s.reviews ++ [⟨mid, uid, uname, r, text, now⟩] } mid
      = ratingsFor s mid ++ [r] := by
    simp [ratingsFor, List.filter_append]
  simp only [createReview, if_pos (show 1 ≤ r ∧ r ≤ 5 from ⟨h1, h5⟩)]
  rw [hr]

/-- After a valid review creation, the id lookup on the movies finds the
original document with its averageRating replaced by the new mean. -/
lemma createReview_find?_movie (s : Store) (mid uid : Nat)
    (uname text : String) (now : Nat) (r : ℚ) (h1 : 1 ≤ r) (h5 : r ≤ 5) :
    ((createReview s mid (some uid) (some uname) (some r) text now).2).movies.find?
        (fun mv => mv.id == mid)
      = (s.movies.find? (fun mv => mv.id == mid)).map
          (fun mv => { mv with averageRating :=
            (ratingsFor s mid ++ [r]).sum / ((ratingsFor s mid ++ [r]).length : ℚ) }) := by
  rw [createReview_valid_eq s mid uid uname text now r h1 h5]
  exact find?_updateMovieRating s.movies mid _

/-- A valid review creation extends the movie's rating multiset by
exactly the new rating. -/
lemma createReview_ratingsFor (s : Store) (mid uid : Nat)
    (uname text : String) (now : Nat) (r : ℚ) (h1 : 1 ≤ r) (h5 : r ≤ 5) :
    ratingsFor ((createReview s mid (some uid) (some uname) (some r) text now).2) mid
      = ratingsFor s mid ++ [r] := by
  rw [createReview_valid_eq s mid uid uname text now r h1 h5]
  simp [ratingsFor, List.filter_append]

/-- Folding a sequence of valid review creations over the store: the
movie stays present, and once at least one review was created its
stored averageRating is the mean over the previous ratings extended by
the new ones. -/
lemma foldl_createReview_spec (mid uid : Nat) (uname text : String) (now : Nat) :
    ∀ (rs : List ℚ) (s : Store) (m : MovieDoc),
      (∀ r ∈ rs, 1 ≤ r ∧ r ≤ 5) →
      s.movies.find? (fun mv => mv.id == mid) = some m →
      ∃ m', (rs.foldl (fun st r =>
          (createReview st mid (some uid) (some uname) (some r) text now).2) s).movies.find?
            (fun mv => mv.id == mid) = some m' ∧
        (rs = [] → m' = m) ∧
        (rs ≠ [] → m'.averageRating
          = (ratingsFor s mid ++ rs).sum / ((ratingsFor s mid ++ rs).length : ℚ)) := by
  intro rs
  induction rs with
  | nil =>
    intro s m _ hfind
    exact ⟨m, by simpa using hfind, fun _ => rfl, fun h => absurd rfl h⟩
  | cons r rest ih =>
    intro s m hval hfind
    have hr := hval r (by simp)
    have hfind1 : ((createReview s mid (some uid) (some uname) (some r) text now).2).movies.find?
        (fun mv => mv.id == mid)
        = some { m with averageRating :=
            (ratingsFor s mid ++ [r]).sum / ((ratingsFor s mid ++ [r]).length : ℚ) } := by
      rw [createReview_find?_movie s mid uid uname text now r hr.1 hr.2, hfind]
      rfl
    have hrat1 : ratingsFor ((createReview s mid (some uid) (some uname) (some r) text now).2) mid
        = ratingsFor s mid ++ [r] :=
      createReview_ratingsFor s mid uid uname text now r hr.1 hr.2
    obtain ⟨m', hfind', hnil, hcons⟩ :=
      ih ((createReview s mid (some uid) (some uname) (some r) text now).2) _
        (fun q hq => hval q (by simp [hq])) hfind1
    refine ⟨m', ?_, fun h => absurd h (by simp), fun _ => ?_⟩
    · rw [List.foldl_cons]
      exact hfind'
    · cases rest with
      | nil =>
        rw [hnil rfl]
      | cons q qs =>
        rw [hcons (by simp), hrat1, List.append_assoc, List.singleton_append]

/-! ## Theorems -/

/-- C1.  First part: after any successful review creation the stored
averageRating of the target movie equals the arithmetic mean of the
ratings of all its reviews, the new one included.  Second part: creating
N reviews with ratings r1..rN sequentially for a movie that starts with
no reviews leaves its averageRating at mean(r1..rN) — exactly, since the
embedding computes the mean over the rationals. -/
theorem createReview_averageRating_is_mean :
    (∀ (s : Store) (mid uid : Nat) (uname text : String) (now : Nat) (r : ℚ)
        (m' : MovieDoc), 1 ≤ r → r ≤ 5 →
      ((createReview s mid (some uid) (some uname) (some r) text now).2).movies.find?
          (fun mv => mv.id == mid) = some m' →
      m'.averageRating
        = (ratingsFor ((createReview s mid (some uid) (some uname) (some r) text now).2) mid).sum
          / ((ratingsFor ((createReview s mid (some uid) (some uname) (some r) text now).2) mid).length : ℚ)) ∧
    (∀ (s : Store) (mid uid : Nat) (uname text : String) (now : Nat)
        (rs : List ℚ) (m : MovieDoc),
      (∀ r ∈ rs, 1 ≤ r ∧ r ≤ 5) → rs ≠ [] →
      ratingsFor s mid = [] →
      s.movies.find? (fun mv => mv.id == mid) = some m →
      ∃ m', (rs.foldl (fun st r =>
          (createReview st mid (some uid) (some uname) (some r) text now).2) s).movies.find?
            (fun mv => mv.id == mid) = some m' ∧
        m'.averageRating = rs.sum / (rs.length : ℚ)) := by
  constructor
  · intro s mid uid uname text now r m' h1 h5 hfound
    rw [createReview_find?_movie s mid uid uname text now r h1 h5] at hfound
    rw [createReview_ratingsFor s mid uid uname text now r h1 h5]
    obtain ⟨m0, _, hfa⟩ := Option.map_eq_some'.mp hfound
    rw [← hfa]
  · intro s mid uid uname text now rs m hval hne hrat hfind
    obtain ⟨m', hfind', _, hcons⟩ :=
      foldl_createReview_spec mid uid uname text now rs s m hval hfind
    exact ⟨m', hfind', by simpa [hrat] using hcons hne⟩

/-- C1, witness: one movie with no reviews; creating ratings 1 then 4
sequentially ends with averageRating equal to their mean. -/
theorem createReview_averageRating_is_mean_witness :
    ∃ m', (([(1 : ℚ), 4]).foldl (fun st r =>
        (createReview st 1 (some 7) (some "u") (some r) "" 0).2)
        ⟨[], [⟨1, "t", [], 2000, "d", 0⟩], []⟩).movies.find?
          (fun mv => mv.id == 1) = some m' ∧
      m'.averageRating = ([(1 : ℚ), 4]).sum / (([(1 : ℚ), 4]).length : ℚ) :=
  createReview_averageRating_is_mean.2 ⟨[], [⟨1, "t", [], 2000, "d", 0⟩], []⟩
    1 7 "u" "" 0 [1, 4] ⟨1, "t", [], 2000, "d", 0⟩
    (by decide) (by simp) rfl rfl

/-- C2, counterexample.  The claim says the watchlist POST operation is a
symmetric-difference toggle and therefore self-inverse.  On the code it is
not: starting from an empty watchlist, invoking the POST operation twice
with movieId 1 leaves the list at [1], not back at the original []. The
handler only ever appends (line 218); removal lives on a separate DELETE
route. -/
theorem watchlist_double_add_not_self_inverse :
    addToWatchlist (addToWatchlist [] 1) 1 = [1] ∧ ([1] : List Nat) ≠ [] := by
  decide

/-- C2, amended.  The watchlist POST operation is an add-if-absent, not a
toggle: a present movieId leaves the list unchanged, an absent one is
appended.  Invoking it twice equals invoking it once (idempotent, not
self-inverse); the state is restored not by a second POST but by the
DELETE route, which removes the appended movieId. -/
theorem watchlistPost_add_if_absent (l : List Nat) (m : Nat) :
    (m ∈ l → addToWatchlist l m = l) ∧
    (m ∉ l → addToWatchlist l m = l ++ [m]) ∧
    addToWatchlist (addToWatchlist l m) m = addToWatchlist l m ∧
    (m ∉ l → removeFromWatchlist (addToWatchlist l m) m = l) := by
  refine ⟨fun h => ?_, fun h => ?_, ?_, fun h => ?_⟩
  · simp [addToWatchlist, h]
  · simp [addToWatchlist, h]
  · by_cases h : m ∈ l
    · simp [addToWatchlist, h]
    · simp [addToWatchlist, h]
  · have hl : l.filter (fun x => x != m) = l :=
      List.filter_eq_self.mpr (by intro a ha; simp; rintro rfl; exact h ha)
    simp [addToWatchlist, removeFromWatchlist, h, List.filter_append, hl]

/-- C2, witness for the amended theorem at concrete inputs. -/
theorem watchlistPost_add_if_absent_witness :
    addToWatchlist [1] 1 = [1] ∧
    removeFromWatchlist (addToWatchlist [2] 1) 1 = [2] :=
  ⟨(watchlistPost_add_if_absent [1] 1).1 (by decide),
   (watchlistPost_add_if_absent [2] 1).2.2.2 (by decide)⟩

/-- C10.  The watchlist POST route is idempotent: a second identical
invocation changes nothing, a present movieId is returned unchanged, and
a duplicate-free watchlist stays duplicate-free, so this route never
introduces the same movieId twice. -/
theorem watchlistPost_idempotent_no_duplicates (l : List Nat) (m : Nat) :
    addToWatchlist (addToWatchlist l m) m = addToWatchlist l m ∧
    (m ∈ l → addToWatchlist l m = l) ∧
    (l.Nodup → (addToWatchlist l m).Nodup) := by
  refine ⟨?_, fun h => ?_, fun h => ?_⟩
  · by_cases h : m ∈ l
    · simp [addToWatchlist, h]
    · simp [addToWatchlist, h]
  · simp [addToWatchlist, h]
  · by_cases hm : m ∈ l
    · simpa [addToWatchlist, hm] using h
    · simp [addToWatchlist, hm, List.nodup_append, h]

/-- C10, witness at concrete inputs. -/
theorem watchlistPost_idempotent_no_duplicates_witness :
    addToWatchlist (addToWatchlist [2] 3) 3 = addToWatchlist [2] 3 ∧
    addToWatchlist [3] 3 = [3] ∧
    (addToWatchlist [1, 2] 3).Nodup :=
  ⟨(watchlistPost_idempotent_no_duplicates [2] 3).1,
   (watchlistPost_idempotent_no_duplicates [3] 3).2.1 (by decide),
   (watchlistPost_idempotent_no_duplicates [1, 2] 3).2.2 (by decide)⟩

/-- C3.  Registering the same email twice, in the claim's scenario where
the first registration succeeds: when no stored user has the email and
none holds its derived username (the email's local part, so that
newUser.save() passes the unique-username index and the first call does
persist the user), the first call answers 201, the second answers 400
and leaves the store exactly as the first call left it, and precisely
one user document with that email exists after the first call (hence
still after the second).  Without the username-freshness hypothesis the
first save is rejected by the unique-username index and answered 500
with nothing persisted, so no second user is ever created there
either. -/
theorem register_duplicate_email_rejected (hash : String → String)
    (s : Store) (id1 id2 : Nat) (email pw1 pw2 : String)
    (hmail : ∀ u ∈ s.users, ¬u.email = email)
    (hname : ∀ u ∈ s.users, ¬u.username = (email.splitOn "@").headD "") :
    (register hash s id1 email pw1).1 = 201 ∧
    (register hash (register hash s id1 email pw1).2 id2 email pw2).1 = 400 ∧
    (register hash (register hash s id1 email pw1).2 id2 email pw2).2
      = (register hash s id1 email pw1).2 ∧
    ((register hash s id1 email pw1).2.users.filter
        (fun u => u.email == email)).length = 1 := by
  have hfind : s.users.find? (fun u => u.email == email) = none :=
    List.find?_eq_none.mpr (by intro u hu; simpa using hmail u hu)
  have hfilter : s.users.filter (fun u => u.email == email) = [] :=
    List.filter_eq_nil_iff.mpr (by intro u hu; simpa using hmail u hu)
  have hany : s.users.any
      (fun u => u.username == (email.splitOn "@").headD "") = false := by
    rw [List.any_eq_false]
    intro u hu
    simpa using hname u hu
  have hno : ¬ (s.users.any
      (fun u => u.username == (email.splitOn "@").headD "") = true) := by
    rw [hany]
    exact Bool.false_ne_true
  have h1 : register hash s id1 email pw1 =
      (201, { s with users := s.users ++
        [⟨id1, email, hash pw1, (email.splitOn "@").headD "", []⟩] }) := by
    simp only [register, hfind]
    rw [if_neg hno]
  refine ⟨by rw [h1], ?_, ?_, ?_⟩
  · rw [h1]
    simp [register, List.find?_append, hfind]
  · rw [h1]
    simp [register, List.find?_append, hfind]
  · rw [h1]
    simp [List.filter_append, hfilter]

/-- C3, witness: the duplicate-registration scenario run from the empty
store. -/
theorem register_duplicate_email_rejected_witness :
    (register (fun p => p ++ "#") ⟨[], [], []⟩ 1 "ann@mail.com" "pw1").1 = 201 ∧
    (register (fun p => p ++ "#")
      (register (fun p => p ++ "#") ⟨[], [], []⟩ 1 "ann@mail.com" "pw1").2
      2 "ann@mail.com" "pw2").1 = 400 ∧
    (register (fun p => p ++ "#")
      (register (fun p => p ++ "#") ⟨[], [], []⟩ 1 "ann@mail.com" "pw1").2
      2 "ann@mail.com" "pw2").2
      = (register (fun p => p ++ "#") ⟨[], [], []⟩ 1 "ann@mail.com" "pw1").2 ∧
    ((register (fun p => p ++ "#") ⟨[], [], []⟩ 1 "ann@mail.com" "pw1").2.users.filter
        (fun u => u.email == "ann@mail.com")).length = 1 :=
  register_duplicate_email_rejected (fun p => p ++ "#") ⟨[], [], []⟩ 1 2
    "ann@mail.com" "pw1" "pw2" (by simp) (by simp)

/-- C8, code bug.  The claim (and the handler's own catch message, meant
for this case) says a missing user yields 404; but findById resolves to
null without throwing, so the handler answers 200 with a null body.  At
the failing input — empty user collection, well-formed id 0 — the code
returns status 200 and body null instead of 404. -/
theorem getUser_missing_user_returns_200_null :
    getUserHandler ⟨[], [], []⟩ 0 = { status := 200, body := none } := rfl

/-- C7, counterexample.  The claim says every handler catches its own
failures and maps them to a status plus JSON message.  The watchlist GET
handler has no try/catch: with an empty user collection and id 0 the user
lookup yields null, reading user.watchlist throws, and no response at all
is produced (none). -/
theorem watchlistGet_unhandled_error_on_missing_user :
    watchlistGetHandler ⟨[], [], []⟩ 0 = none := rfl

/-- C9.  Listing the reviews of a movie returns exactly the stored
reviews whose movieId matches (as a permutation of that filtered set, so
all of them, duplicates included), ordered newest first: every element is
created no earlier than each element after it. -/
theorem listReviewsForMovie_all_and_newest_first (s : Store) (mid : Nat) :
    List.Perm (listReviewsForMovie s mid)
      (s.reviews.filter (fun r => r.movieId == mid)) ∧
    (∀ r, r ∈ listReviewsForMovie s mid ↔ r ∈ s.reviews ∧ r.movieId = mid) ∧
    (listReviewsForMovie s mid).Pairwise
      (fun a b => b.createdAt ≤ a.createdAt) := by
  refine ⟨List.perm_insertionSort _ _, fun r => ?_, ?_⟩
  · rw [show listReviewsForMovie s mid = List.insertionSort newerFirst
        (s.reviews.filter (fun rv => rv.movieId == mid)) from rfl,
      (List.perm_insertionSort newerFirst _).mem_iff]
    simp [List.mem_filter]
  · exact List.sorted_insertionSort newerFirst _

/-- C4.  With the movieId supplied by the route parameter, review
creation answers 400 exactly when the rating is outside [1,5] or a
required reference (userId, username) is absent from the body; a 400
leaves the store untouched (no review stored, no averageRating change);
and every call answers either 201 or 400 — so in-range ratings with both
references present, in particular 1 and 5, are accepted with 201. -/
theorem createReview_validation (s : Store) (mid : Nat)
    (userId : Option Nat) (username : Option String) (r : ℚ)
    (text : String) (now : Nat) :
    ((createReview s mid userId username (some r) text now).1 = 400 ↔
      (r < 1 ∨ 5 < r ∨ userId = none ∨ username = none)) ∧
    ((createReview s mid userId username (some r) text now).1 = 400 →
      (createReview s mid userId username (some r) text now).2 = s) ∧
    ((createReview s mid userId username (some r) text now).1 = 201 ∨
      (createReview s mid userId username (some r) text now).1 = 400) := by
  rcases userId with _ | uid
  · simp [createReview]
  rcases username with _ | un
  · simp [createReview]
  by_cases h : 1 ≤ r ∧ r ≤ 5
  · have h201 : (createReview s mid (some uid) (some un) (some r) text now).1 = 201 := by
      simp [createReview, h]
    refine ⟨⟨fun hbad => ?_, fun hrhs => ?_⟩, fun hbad => ?_, Or.inl h201⟩
    · rw [h201] at hbad
      exact absurd hbad (by decide)
    · exfalso
      rcases hrhs with h1 | h2 | h3 | h4
      · exact absurd h.1 (not_le.mpr h1)
      · exact absurd h.2 (not_le.mpr h2)
      · exact Option.some_ne_none uid h3
      · exact Option.some_ne_none un h4
    · rw [h201] at hbad
      exact absurd hbad (by decide)
  · have heq : createReview s mid (some uid) (some un) (some r) text now = (400, s) := by
      simp [createReview, h]
    rw [heq]
    refine ⟨⟨fun _ => ?_, fun _ => rfl⟩, fun _ => rfl, Or.inr rfl⟩
    rcases not_and_or.mp h with h1 | h2
    · exact Or.inl (not_le.mp h1)
    · exact Or.inr (Or.inl (not_le.mp h2))

/-- C4, witness: from the empty store, rating 0 is rejected with 400 and
the store is unchanged; ratings 1 and 5 are accepted with 201. -/
theorem createReview_validation_witness :
    (createReview ⟨[], [], []⟩ 9 (some 7) (some "u") (some 0) "" 0).1 = 400 ∧
    (createReview ⟨[], [], []⟩ 9 (some 7) (some "u") (some 0) "" 0).2 = ⟨[], [], []⟩ ∧
    (createReview ⟨[], [], []⟩ 9 (some 7) (some "u") (some 1) "" 0).1 = 201 ∧
    (createReview ⟨[], [], []⟩ 9 (some 7) (some "u") (some 5) "" 0).1 = 201 := by
  have t0 := createReview_validation ⟨[], [], []⟩ 9 (some 7) (some "u") 0 "" 0
  have t1 := createReview_validation ⟨[], [], []⟩ 9 (some 7) (some "u") 1 "" 0
  have t5 := createReview_validation ⟨[], [], []⟩ 9 (some 7) (some "u") 5 "" 0
  have h0 : (createReview ⟨[], [], []⟩ 9 (some 7) (some "u") (some 0) "" 0).1 = 400 :=
    t0.1.mpr (Or.inl (by norm_num))
  refine ⟨h0, t0.2.1 h0, ?_, ?_⟩
  · rcases t1.2.2 with h | h
    · exact h
    · rcases t1.1.mp h with h' | h' | h' | h' <;> simp_all
  · rcases t5.2.2 with h | h
    · exact h
    · rcases t5.1.mp h with h' | h' | h' | h' <;> simp_all

/-- C5.  Login answers 404 when no stored user has the email; 400 with no
token (and no summary) when the hash comparison fails; and 200 with the
minimal summary (id, email) plus a signed one-hour token binding exactly
the user's email and id when it succeeds. -/
theorem login_status_and_token (compare : String → String → Bool)
    (secret : String) (s : Store) (email password : String) :
    (s.users.find? (fun u => u.email == email) = none →
      login compare secret s email password
        = { status := 404, result := none, token := none }) ∧
    (∀ u, s.users.find? (fun v => v.email == email) = some u →
      compare password u.password = false →
      login compare secret s email password
        = { status := 400, result := none, token := none }) ∧
    (∀ u, s.users.find? (fun v => v.email == email) = some u →
      compare password u.password = true →
      login compare secret s email password
        = { status := 200, result := some (u.id, u.email),
            token := some ⟨u.email, u.id, 3600, secret⟩ }) := by
  refine ⟨fun h => ?_, fun u hu hc => ?_, fun u hu hc => ?_⟩
  · simp [login, h]
  · simp [login, hu, hc]
  · simp [login, hu, hc]

/-- C5, witness: with bcrypt.compare embodied as string equality and one
stored user, an unknown email gives 404, a wrong password gives 400 with
no token, and the right password gives 200 with the summary and the
one-hour token. -/
theorem login_status_and_token_witness :
    login (fun p h => p == h) "sec" ⟨[], [], []⟩ "a@b" "pw"
      = { status := 404, result := none, token := none } ∧
    login (fun p h => p == h) "sec" ⟨[⟨1, "a@b", "pw", "a", []⟩], [], []⟩ "a@b" "bad"
      = { status := 400, result := none, token := none } ∧
    login (fun p h => p == h) "sec" ⟨[⟨1, "a@b", "pw", "a", []⟩], [], []⟩ "a@b" "pw"
      = { status := 200, result := some (1, "a@b"),
          token := some ⟨"a@b", 1, 3600, "sec"⟩ } :=
  ⟨(login_status_and_token (fun p h => p == h) "sec" ⟨[], [], []⟩ "a@b" "pw").1 rfl,
   (login_status_and_token (fun p h => p == h) "sec"
      ⟨[⟨1, "a@b", "pw", "a", []⟩], [], []⟩ "a@b" "bad").2.1
      ⟨1, "a@b", "pw", "a", []⟩ (by decide) (by decide),
   (login_status_and_token (fun p h => p == h) "sec"
      ⟨[⟨1, "a@b", "pw", "a", []⟩], [], []⟩ "a@b" "pw").2.2
      ⟨1, "a@b", "pw", "a", []⟩ (by decide) (by decide)⟩

/-- C6.  The movie listing filters by genre (equality match, i.e. the
genre list contains the value), exact release year, and averageRating at
least the given rating; pagination is 1-indexed skip/limit: with page p
and limit l the response holds exactly the filtered items at 0-indexed
positions (p-1)*l + i for i < l — 1-indexed positions (p-1)*l+1 through
p*l — or fewer when fewer remain. -/
theorem listMovies_filter_and_pagination (movies : List MovieDoc)
    (page limit : Nat) (genre : Option String) (year : Option Nat)
    (rating : Option ℚ) (hp : 1 ≤ page) :
    (∀ m, m ∈ filteredMovies movies genre year rating ↔
      (m ∈ movies ∧ (∀ g, genre = some g → g ∈ m.genre) ∧
        (∀ y, year = some y → m.releaseYear = y) ∧
        (∀ q, rating = some q → q ≤ m.averageRating))) ∧
    (listMovies movies page limit genre year rating).length
      = min limit ((filteredMovies movies genre year rating).length - (page - 1) * limit) ∧
    (∀ i, i < limit →
      (listMovies movies page limit genre year rating)[i]?
        = (filteredMovies movies genre year rating)[(page - 1) * limit + i]?) := by
  refine ⟨fun m => ?_, ?_, fun i hi => ?_⟩
  · cases genre <;> cases year <;> cases rating <;>
      simp [filteredMovies, List.mem_filter, movieMatches, and_assoc]
  · simp [listMovies, List.length_take, List.length_drop]
  · simp [listMovies, List.getElem?_take, hi, List.getElem?_drop]

/-- C6, witness: three movies, no filters, page 2 with limit 1 returns
exactly the second item. -/
theorem listMovies_filter_and_pagination_witness :
    (listMovies
        [⟨1, "a", [], 2000, "d", 0⟩, ⟨2, "b", [], 2001, "d", 0⟩, ⟨3, "c", [], 2002, "d", 0⟩]
        2 1 none none none).length
      = min 1 ((filteredMovies
        [⟨1, "a", [], 2000, "d", 0⟩, ⟨2, "b", [], 2001, "d", 0⟩, ⟨3, "c", [], 2002, "d", 0⟩]
        none none none).length - (2 - 1) * 1) ∧
    (listMovies
        [⟨1, "a", [], 2000, "d", 0⟩, ⟨2, "b", [], 2001, "d", 0⟩, ⟨3, "c", [], 2002, "d", 0⟩]
        2 1 none none none)[0]?
      = (filteredMovies
        [⟨1, "a", [], 2000, "d", 0⟩, ⟨2, "b", [], 2001, "d", 0⟩, ⟨3, "c", [], 2002, "d", 0⟩]
        none none none)[(2 - 1) * 1 + 0]? :=
  ⟨(listMovies_filter_and_pagination
      [⟨1, "a", [], 2000, "d", 0⟩, ⟨2, "b", [], 2001, "d", 0⟩, ⟨3, "c", [], 2002, "d", 0⟩]
      2 1 none none none (by decide)).2.1,
   (listMovies_filter_and_pagination
      [⟨1, "a", [], 2000, "d", 0⟩, ⟨2, "b", [], 2001, "d", 0⟩, ⟨3, "c", [], 2002, "d", 0⟩]
      2 1 none none none (by decide)).2.2 0 (by decide)⟩

/-- C7, amended.  The handlers written with try/catch that the claims
model — register, login, review creation — always answer with a
definite status code: 201, 400 or 500 for register (500 when the
unique-username index rejects the save and the catch fires), 200, 400
or 404 for login, 201 or 400 for review creation.  The watchlist
handlers have no local catch: they produce a response exactly when the
user exists, and a nonexistent user lets the thrown error escape the
handler unhandled. -/
theorem handler_error_policy (s : Store) (uid movieId : Nat) :
    ((watchlistGetHandler s uid).isSome ↔
      (s.users.find? (fun u => u.id == uid)).isSome) ∧
    ((watchlistPostHandler s uid movieId).isSome ↔
      (s.users.find? (fun u => u.id == uid)).isSome) ∧
    ((watchlistDeleteHandler s uid movieId).isSome ↔
      (s.users.find? (fun u => u.id == uid)).isSome) ∧
    (∀ hash freshId email pw, (register hash s freshId email pw).1 = 201 ∨
      (register hash s freshId email pw).1 = 400 ∨
      (register hash s freshId email pw).1 = 500) ∧
    (∀ compare secret email pw,
      (login compare secret s email pw).status = 200 ∨
      (login compare secret s email pw).status = 400 ∨
      (login compare secret s email pw).status = 404) ∧
    (∀ mid userId username rat text now,
      (createReview s mid userId username rat text now).1 = 201 ∨
      (createReview s mid userId username rat text now).1 = 400) := by
  refine ⟨?_, ?_, ?_, ?_, ?_, ?_⟩
  · cases hf : s.users.find? (fun u => u.id == uid) <;>
      simp [watchlistGetHandler, hf]
  · cases hf : s.users.find? (fun u => u.id == uid) <;>
      simp [watchlistPostHandler, hf]
  · cases hf : s.users.find? (fun u => u.id == uid) <;>
      simp [watchlistDeleteHandler, hf]
  · intro hash freshId email pw
    cases hf : s.users.find? (fun u => u.email == email) with
    | some u => simp [register, hf]
    | none =>
      cases ha : s.users.any
          (fun u => u.username == (email.splitOn "@").headD "") with
      | true =>
        have h500 : register hash s freshId email pw = (500, s) := by
          simp only [register, hf]
          rw [if_pos ha]
        exact Or.inr (Or.inr (by rw [h500]))
      | false =>
        have hno : ¬ (s.users.any
            (fun u => u.username == (email.splitOn "@").headD "") = true) := by
          rw [ha]
          exact Bool.false_ne_true
        refine Or.inl ?_
        simp only [register, hf]
        rw [if_neg hno]
  · intro compare secret email pw
    cases hf : s.users.find? (fun u => u.email == email) with
    | none => simp [login, hf]
    | some u => by_cases hc : compare pw u.password <;> simp [login, hf, hc]
  · intro mid userId username rat text now
    rcases userId with _ | u
    · simp [createReview]
    rcases username with _ | un
    · simp [createReview]
    rcases rat with _ | r
    · simp [createReview]
    by_cases h : 1 ≤ r ∧ r ≤ 5 <;> simp [createReview, h]

end MovieBuzz
